import Mathlib

/-!
Verification of the staging/production dataset reconciler
(`scripts/comparing-staging-production.ts`).

The script fetches two company collections ("staging" and "production"),
aligns them by `wikidataId`, walks each aligned pair field by field and
emits one `ComparisonResult` per production company, which is then rendered
to CSV rows.  The definitions below are a shallow embedding of that code:
JavaScript `undefined`/`null`/number values become the inductive `JVal`,
optional sub-objects become `Option`, and the comparators — which in the
source push labels onto the two mutable arrays of a result object and
return a matched count — become pure functions returning the lists of
labels pushed (in push order) together with the returned count.
-/

set_option linter.unusedVariables false
set_option maxHeartbeats 1600000

namespace Garbo

/-- A JavaScript value sitting in an optional numeric or string field:
`undef` models both a missing property and an explicit `undefined`,
`null` models `null`, and `val a` a present value.  Strict equality
(`===`) between two such values is plain equality of this type
(`undefined === undefined` and `null === null` hold, `null === undefined`
does not), which matches JavaScript on the number/string payloads the
schema allows (`NaN` never arises from schema-validated JSON). -/
inductive JVal (α : Type) where
  | undef
  | null
  | val (a : α)
deriving DecidableEq, Repr

/-- The JavaScript loose test `x != null`, which holds exactly when `x` is
neither `null` nor `undefined`. -/
def JVal.neNull {α : Type} : JVal α → Bool
  | .val _ => true
  | _ => false

/-- Decimal rendering of a numeric value for labels (`toString q`).  The
source interpolates JavaScript numbers into template strings; no claim
depends on the exact digit sequence, only on label prefixes. -/
def numToLabel (q : ℚ) : String := toString q

/-- JavaScript template-string rendering of a possibly null/undefined
number (`${x}` gives "undefined" / "null" for the two empty values). -/
def JVal.render : JVal ℚ → String
  | .undef => "undefined"
  | .null => "null"
  | .val q => numToLabel q

/-- JavaScript template-string rendering of a possibly null/undefined
string. -/
def JVal.renderStr : JVal String → String
  | .undef => "undefined"
  | .null => "null"
  | .val s => s

/-- A scope-1 or scope-2 emissions block with its four numeric fields
`total`, `mb`, `lb`, `unknown` (any of which may be absent or null). -/
structure Scope12 where
  total : JVal ℚ
  mb : JVal ℚ
  lb : JVal ℚ
  unknown : JVal ℚ
deriving DecidableEq, Repr

/-- A `statedTotalEmissions` sub-object carrying a `total` field. -/
structure StatedTotal where
  total : JVal ℚ
deriving DecidableEq, Repr

/-- A scope-3 category entry: a category number and its total. -/
structure Scope3Category where
  category : ℚ
  total : JVal ℚ
deriving DecidableEq, Repr

/-- A scope-3 block: optional stated total and optional category list.
`none` stands for an absent or `null` sub-object — the source only ever
reads these through optional chaining and truthiness tests, on which
`null` and `undefined` behave identically. -/
structure Scope3 where
  statedTotalEmissions : Option StatedTotal
  categories : Option (List Scope3Category)
deriving DecidableEq, Repr

/-- An emissions record of a reporting period. -/
structure Emissions where
  scope1 : Option Scope12
  scope2 : Option Scope12
  scope3 : Option Scope3
  calculatedTotalEmissions : JVal ℚ
  statedTotalEmissions : Option StatedTotal
deriving DecidableEq, Repr

/-- The `employees` sub-object of an economy record. -/
structure Employees where
  value : JVal ℚ
deriving DecidableEq, Repr

/-- The `turnover` sub-object of an economy record. -/
structure Turnover where
  value : JVal ℚ
  currency : JVal String
deriving DecidableEq, Repr

/-- An economy record of a reporting period. -/
structure Economy where
  employees : Option Employees
  turnover : Option Turnover
deriving DecidableEq, Repr

/-- A reporting period: its ISO end date and optional emissions/economy
sub-records. -/
structure ReportingPeriod where
  endDate : String
  emissions : Option Emissions
  economy : Option Economy
deriving DecidableEq, Repr

/-- A company record as returned by the companies endpoint. -/
structure Company where
  wikidataId : String
  name : String
  reportingPeriods : List ReportingPeriod
deriving DecidableEq, Repr

/-- A validated company collection. -/
abbrev CompanyList := List Company

/-- The per-company comparison record pushed by `compareData`.  The source
builds it as a dynamic object; `inStaging` is listed here because the CSV
renderer reads it, but `compareData` never assigns it, so it is always
`none` (JavaScript `undefined`) on every result the script produces. -/
structure ComparisonResult where
  name : String
  matchedFields : List String
  mismatchedFields : List String
  accuracy : ℚ
  note : String
  inStaging : Option Bool
deriving DecidableEq, Repr

/-- `new Date(date).getFullYear().toString()`, modelled on ISO date
strings as the four year characters.  Every claim treats the end date as
opaque up to this derived year, so none depends on calendar details. -/
def formatYear (date : String) : String := date.take 4

/-- The optional chain `emissions?.scope1`. -/
def chainScope1 : Option Emissions → Option Scope12
  | none => none
  | some e => e.scope1

/-- The optional chain `emissions?.scope2`. -/
def chainScope2 : Option Emissions → Option Scope12
  | none => none
  | some e => e.scope2

/-- The optional chain `emissions?.scope3`. -/
def chainScope3 : Option Emissions → Option Scope3
  | none => none
  | some e => e.scope3

/-- The optional chain `scope3?.statedTotalEmissions?.total` (undefined
when any link is missing). -/
def chainStatedTotal : Option Scope3 → JVal ℚ
  | none => .undef
  | some s =>
    match s.statedTotalEmissions with
    | none => .undef
    | some st => st.total

/-- The optional chain `scope3?.categories`. -/
def chainCategories : Option Scope3 → Option (List Scope3Category)
  | none => none
  | some s => s.categories

/-- The optional chain `emissions?.calculatedTotalEmissions`. -/
def chainCalculated : Option Emissions → JVal ℚ
  | none => .undef
  | some e => e.calculatedTotalEmissions

/-- The optional chain `emissions?.statedTotalEmissions?.total`. -/
def chainEmissionsStated : Option Emissions → JVal ℚ
  | none => .undef
  | some e =>
    match e.statedTotalEmissions with
    | none => .undef
    | some st => st.total

/-- The optional chain `economy?.employees?.value`. -/
def chainEmployees : Option Economy → JVal ℚ
  | none => .undef
  | some e =>
    match e.employees with
    | none => .undef
    | some emp => emp.value

/-- The optional chain `economy?.turnover?.value`. -/
def chainTurnoverValue : Option Economy → JVal ℚ
  | none => .undef
  | some e =>
    match e.turnover with
    | none => .undef
    | some t => t.value

/-- The optional chain `economy?.turnover?.currency`. -/
def chainTurnoverCurrency : Option Economy → JVal String
  | none => .undef
  | some e =>
    match e.turnover with
    | none => .undef
    | some t => t.currency

/-- The amount half of `formatCurrency`: `Intl.NumberFormat` coerces its
argument with `ToNumber`, so `null` renders as `0` and `undefined` as
`NaN`.  Digit grouping (the space thousands separator) is not modelled;
no claim depends on it. -/
def amountToString : JVal ℚ → String
  | .undef => "NaN"
  | .null => "0"
  | .val q => numToLabel q

/-- `formatCurrency(amount, currency)` from the source: the formatted
amount followed by a space and the interpolated currency. -/
def formatCurrency (amount : JVal ℚ) (currency : JVal String) : String :=
  amountToString amount ++ " " ++ currency.renderStr

/-- Concatenation of comparator outputs: each part contributes its pushed
matched labels, its pushed mismatched labels and its returned matched
count, in program order. -/
def combine3 (parts : List (List String × List String × Nat)) :
    List String × List String × Nat :=
  parts.foldr (fun a b => (a.1 ++ b.1, a.2.1 ++ b.2.1, a.2.2 + b.2.2)) ([], [], 0)

/-- One iteration of `compareEmissions`' field loop, on the two values
read by optional chaining: if both are not `undefined` they are compared
strictly, pushing `"<scope>.<field>: <year>"` as a match or mismatch;
otherwise nothing is pushed. -/
def compareEmissionField (scopeName fieldName : String)
    (prodValue stageValue : JVal ℚ) (year : String) :
    List String × List String × Nat :=
  if prodValue ≠ JVal.undef ∧ stageValue ≠ JVal.undef then
    if prodValue = stageValue then
      ([scopeName ++ "." ++ fieldName ++ ": " ++ year], [], 1)
    else
      ([], [scopeName ++ "." ++ fieldName ++ ": " ++ year], 0)
  else ([], [], 0)

/-- The optional chain `scope?.[field]` of a scope-1/2 block. -/
def chainField (scope : Option Scope12) (get : Scope12 → JVal ℚ) : JVal ℚ :=
  match scope with
  | none => JVal.undef
  | some s => get s

/-- `compareEmissions` from the source: an early return when both scope
blocks are falsy, otherwise the loop over the four fields
`['total', 'mb', 'lb', 'unknown']`. -/
def compareEmissions (scopeName : String) (prodScope stageScope : Option Scope12)
    (year : String) : List String × List String × Nat :=
  if prodScope = none ∧ stageScope = none then ([], [], 0)
  else
    combine3 [
      compareEmissionField scopeName "total"
        (chainField prodScope Scope12.total) (chainField stageScope Scope12.total) year,
      compareEmissionField scopeName "mb"
        (chainField prodScope Scope12.mb) (chainField stageScope Scope12.mb) year,
      compareEmissionField scopeName "lb"
        (chainField prodScope Scope12.lb) (chainField stageScope Scope12.lb) year,
      compareEmissionField scopeName "unknown"
        (chainField prodScope Scope12.unknown) (chainField stageScope Scope12.unknown) year]

/-- The null-guarded value comparison used for
`scope3.statedTotalEmissions.total`, `calculatedTotalEmissions` and
`statedTotalEmissions.total`: on strict equality a match is pushed only
when the value is `!= null`; on inequality a mismatch is pushed. -/
def compareNullableValue (label : String) (prodValue stageValue : JVal ℚ)
    (year : String) : List String × List String × Nat :=
  if prodValue = stageValue then
    if prodValue.neNull then ([label ++ ": " ++ year], [], 1)
    else ([], [], 0)
  else ([], [label ++ ": " ++ year], 0)

/-- The label `"scope3.category=<n>: <year>"`. -/
def categoryLabel (c : Scope3Category) (year : String) : String :=
  "scope3.category=" ++ numToLabel c.category ++ ": " ++ year

/-- One iteration of `compareScope3`'s category loop: the first staging
category with an equal category number is located; absent gives a
mismatch, otherwise the totals are compared strictly. -/
def compareScope3Category (stageCategories : List Scope3Category)
    (prodCategory : Scope3Category) (year : String) :
    List String × List String × Nat :=
  match stageCategories.find? (fun cat => decide (cat.category = prodCategory.category)) with
  | none => ([], [categoryLabel prodCategory year], 0)
  | some stageCategory =>
    if prodCategory.total = stageCategory.total then
      ([categoryLabel prodCategory year], [], 1)
    else
      ([], [categoryLabel prodCategory year], 0)

/-- The category half of `compareScope3`: only when both sides'
`categories` collections are truthy does the loop over the production
categories run. -/
def compareScope3Categories (prodScope3 stageScope3 : Option Scope3) (year : String) :
    List String × List String × Nat :=
  match chainCategories prodScope3, chainCategories stageScope3 with
  | some prodCategories, some stageCategories =>
    combine3 (prodCategories.map
      (fun prodCategory => compareScope3Category stageCategories prodCategory year))
  | _, _ => ([], [], 0)

/-- `compareScope3` from the source: early return when both blocks are
falsy; then the stated-total comparison, then the category loop. -/
def compareScope3 (prodScope3 stageScope3 : Option Scope3) (year : String) :
    List String × List String × Nat :=
  if prodScope3 = none ∧ stageScope3 = none then ([], [], 0)
  else
    combine3 [
      compareNullableValue "scope3.statedTotalEmissions.total"
        (chainStatedTotal prodScope3) (chainStatedTotal stageScope3) year,
      compareScope3Categories prodScope3 stageScope3 year]

/-- `compareTotalEmissions` from the source: the two independent
null-guarded comparisons of `calculatedTotalEmissions` and
`statedTotalEmissions.total`. -/
def compareTotalEmissions (prodEmissions stageEmissions : Option Emissions)
    (year : String) : List String × List String × Nat :=
  combine3 [
    compareNullableValue "calculatedTotalEmissions"
      (chainCalculated prodEmissions) (chainCalculated stageEmissions) year,
    compareNullableValue "statedTotalEmissions.total"
      (chainEmissionsStated prodEmissions) (chainEmissionsStated stageEmissions) year]

/-- `compareEconomy` from the source: employees compared when both values
are not `undefined` (the matched label embeds the value, the mismatched
label both values); turnover compared on value and currency together,
with currency-formatted labels. -/
def compareEconomy (prodEconomy stageEconomy : Option Economy) (year : String) :
    List String × List String × Nat :=
  let prodEmployees := chainEmployees prodEconomy
  let stageEmployees := chainEmployees stageEconomy
  let employeesPart :=
    if prodEmployees ≠ JVal.undef ∧ stageEmployees ≠ JVal.undef then
      if prodEmployees = stageEmployees then
        (["employees: " ++ prodEmployees.render], [], 1)
      else
        ([], ["employees: Production(" ++ prodEmployees.render ++ ") vs Staging("
              ++ stageEmployees.render ++ ")"], 0)
    else ([], [], 0)
  let prodEconomyValue := chainTurnoverValue prodEconomy
  let prodEconomyCurrency := chainTurnoverCurrency prodEconomy
  let stageEconomyValue := chainTurnoverValue stageEconomy
  let stageEconomyCurrency := chainTurnoverCurrency stageEconomy
  let turnoverPart :=
    if prodEconomyValue ≠ JVal.undef ∧ stageEconomyValue ≠ JVal.undef then
      let formattedProdEconomy := formatCurrency prodEconomyValue prodEconomyCurrency
      let formattedStageEconomy := formatCurrency stageEconomyValue stageEconomyCurrency
      if prodEconomyValue = stageEconomyValue ∧ prodEconomyCurrency = stageEconomyCurrency then
        (["economy: " ++ formattedProdEconomy], [], 1)
      else
        ([], ["economy: Production(" ++ formattedProdEconomy ++ ") vs Staging("
              ++ formattedStageEconomy ++ ")"], 0)
    else ([], [], 0)
  combine3 [employeesPart, turnoverPart]

/-- The expression `(emissions?.scope3?.categories?.length || 0)` from the
denominator accumulation in `compareData`. -/
def chainCatsLen (e : Option Emissions) : Nat :=
  match chainCategories (chainScope3 e) with
  | some cats => cats.length
  | none => 0

/-- One iteration of `compareData`'s reporting-period loop, returning the
pushed matched labels, pushed mismatched labels, the matched-count
increment and the total-count increment.  A period whose year is not
found in staging pushes only `"Reporting period: <year>"` and contributes
nothing to either count; otherwise the five comparators run in order and
the total count grows by the fixed 1 (scope1) + 3 (scope2) +
(#production categories + 1) (scope3) + 2 (totals) + 2 (economy). -/
def comparePeriod (stagePeriods : List ReportingPeriod)
    (prodReportingPeriod : ReportingPeriod) :
    List String × List String × Nat × Nat :=
  match stagePeriods.find?
      (fun rp => decide (formatYear rp.endDate = formatYear prodReportingPeriod.endDate)) with
  | none => ([], ["Reporting period: " ++ formatYear prodReportingPeriod.endDate], 0, 0)
  | some stageReportingPeriod =>
    let year := formatYear prodReportingPeriod.endDate
    let parts := combine3 [
      compareEmissions "scope1" (chainScope1 prodReportingPeriod.emissions)
        (chainScope1 stageReportingPeriod.emissions) year,
      compareEmissions "scope2" (chainScope2 prodReportingPeriod.emissions)
        (chainScope2 stageReportingPeriod.emissions) year,
      compareScope3 (chainScope3 prodReportingPeriod.emissions)
        (chainScope3 stageReportingPeriod.emissions) year,
      compareTotalEmissions prodReportingPeriod.emissions
        stageReportingPeriod.emissions year,
      compareEconomy prodReportingPeriod.economy
        stageReportingPeriod.economy year]
    (parts.1, parts.2.1, parts.2.2,
      1 + 3 + (chainCatsLen prodReportingPeriod.emissions + 1) + 2 + 2)

/-- The whole reporting-period loop of `compareData`: labels concatenated
in push order, counts summed. -/
def aggregatePeriods (stagePeriods prodPeriods : List ReportingPeriod) :
    List String × List String × Nat × Nat :=
  (prodPeriods.map (comparePeriod stagePeriods)).foldr
    (fun a b => (a.1 ++ b.1, a.2.1 ++ b.2.1, a.2.2.1 + b.2.2.1, a.2.2.2 + b.2.2.2))
    ([], [], 0, 0)

/-- `toFixed(2)` followed by `parseFloat`, modelled as exact rounding of
the rational to two decimal places (half up); IEEE-754 representation
artifacts are out of scope. -/
def round2 (x : ℚ) : ℚ := (round (x * 100) : ℤ) / 100

/-- The accuracy computation at the end of `compareData`'s company loop. -/
def accuracyOf (matchedFieldCount totalFieldCount : Nat) : ℚ :=
  if 0 < totalFieldCount then
    round2 ((matchedFieldCount : ℚ) / (totalFieldCount : ℚ) * 100)
  else 0

/-- The result pushed for a production company with no staging
counterpart. -/
def companyNotInStaging (prodCompany : Company) : ComparisonResult :=
  { name := prodCompany.name
    matchedFields := []
    mismatchedFields := ["Company does not exist in staging"]
    accuracy := 0
    note := "Exists in production but not in staging"
    inStaging := none }

/-- One iteration of `compareData`'s company loop: staging lookup by
`wikidataId`, then the period loop, accuracy and note.  No branch ever
assigns `inStaging`. -/
def compareCompany (stagingData : CompanyList) (prodCompany : Company) :
    ComparisonResult :=
  match stagingData.find? (fun comp => decide (comp.wikidataId = prodCompany.wikidataId)) with
  | none => companyNotInStaging prodCompany
  | some stageCompany =>
    let agg := aggregatePeriods stageCompany.reportingPeriods prodCompany.reportingPeriods
    { name := prodCompany.name
      matchedFields := agg.1
      mismatchedFields := agg.2.1
      accuracy := accuracyOf agg.2.2.1 agg.2.2.2
      note := if agg.2.1 = [] then "All data matches between production and staging"
              else "Partial mismatch or missing data between production and staging"
      inStaging := none }

/-- The pair (`matchedFieldCount`, `totalFieldCount`) accumulated for one
production company ( (0, 0) when the company is absent from staging and
the counting loop never runs). -/
def companyCounts (stagingData : CompanyList) (prodCompany : Company) : Nat × Nat :=
  match stagingData.find? (fun comp => decide (comp.wikidataId = prodCompany.wikidataId)) with
  | none => (0, 0)
  | some stageCompany =>
    let agg := aggregatePeriods stageCompany.reportingPeriods prodCompany.reportingPeriods
    (agg.2.2.1, agg.2.2.2)

/-- `compareData` from the source: one result pushed per production
company, in order. -/
def compareData (stagingData productionData : CompanyList) : List ComparisonResult :=
  productionData.map (compareCompany stagingData)

/-- The denotation of the `mismatchedFields.reduce` accumulator in
`generateCSV` as a lookup function.  Each entry of `mismatchedFields` is
a plain string, so `field.field` is JavaScript `undefined` and the
accumulator key is the string `"undefined"`, while `field.production`
and `field.staging` are `undefined` and both default to `"N/A"`.  The
resulting object therefore maps `"undefined"` to `("N/A", "N/A")` when
at least one mismatch entry exists, and holds no other key. -/
def mismatchedMapLookup (mismatchedFields : List String) (fieldName : String) :
    Option (String × String) :=
  if fieldName = "undefined" ∧ mismatchedFields ≠ [] then some ("N/A", "N/A") else none

/-- `resolveMatchOrDifference` from the source: a mismatch-map hit renders
the production/staging pair, else a matched label starting with the field
name renders "Yes", else "N/A". -/
def resolveMatchOrDifference (fieldName : String)
    (mismatchedMap : String → Option (String × String))
    (matchedFields : List String) : String :=
  match mismatchedMap fieldName with
  | some pv => "Production: " ++ pv.1 ++ ", Staging: " ++ pv.2
  | none =>
    match matchedFields.find? (fun field => field.startsWith fieldName) with
    | some _ => "Yes"
    | none => "N/A"

/-- One row of the CSV rendering. -/
structure CSVRow where
  name : String
  inStaging : String
  scope1 : String
  scope2 : String
  scope3 : String
  employees : String
  economy : String
  accuracy : ℚ
deriving DecidableEq, Repr

/-- One row of `generateCSV`'s mapping: the ternary on the truthiness of
`result.inStaging`, and the five resolved scoped columns. -/
def generateCSVRow (result : ComparisonResult) : CSVRow :=
  let mismatchedMap := mismatchedMapLookup result.mismatchedFields
  { name := result.name
    inStaging := if result.inStaging = some true then "Yes" else "No"
    scope1 := resolveMatchOrDifference "scope1" mismatchedMap result.matchedFields
    scope2 := resolveMatchOrDifference "scope2" mismatchedMap result.matchedFields
    scope3 := resolveMatchOrDifference "scope3" mismatchedMap result.matchedFields
    employees := resolveMatchOrDifference "employees" mismatchedMap result.matchedFields
    economy := resolveMatchOrDifference "economy" mismatchedMap result.matchedFields
    accuracy := result.accuracy }

/-- The row list of `generateCSV` (the CSV serialization itself is out of
scope). -/
def generateCSV (results : List ComparisonResult) : List CSVRow :=
  results.map generateCSVRow

/-! ### Concrete datasets used as test inputs -/

/-- A scope block with all four fields populated and equal to 1. -/
def fullScope : Scope12 := { total := .val 1, mb := .val 1, lb := .val 1, unknown := .val 1 }

/-- An emissions record with every comparable field populated. -/
def fullEmissions : Emissions :=
  { scope1 := some fullScope
    scope2 := some fullScope
    scope3 := some { statedTotalEmissions := some { total := .val 5 }, categories := some [] }
    calculatedTotalEmissions := .val 7
    statedTotalEmissions := some { total := .val 5 } }

/-- An economy record with employees and turnover populated. -/
def fullEconomy : Economy :=
  { employees := some { value := .val 10 }
    turnover := some { value := .val 100, currency := .val "USD" } }

/-- A company with one reporting period in which every comparable field is
populated. -/
def fullCompany : Company :=
  { wikidataId := "Q1"
    name := "Acme"
    reportingPeriods := [⟨"2022-12-31", some fullEmissions, some fullEconomy⟩] }

/-- A dataset consisting of `fullCompany` alone. -/
def fullData : CompanyList := [fullCompany]

/-- An emissions record where only `scope1.total` is populated. -/
def scope1OnlyEmissions : Emissions :=
  { scope1 := some { total := .val 100, mb := .undef, lb := .undef, unknown := .undef }
    scope2 := none
    scope3 := none
    calculatedTotalEmissions := .undef
    statedTotalEmissions := none }

/-- A reporting period populating only `scope1.total`. -/
def periodA : ReportingPeriod := ⟨"2022-12-31", some scope1OnlyEmissions, none⟩

/-- A company whose single reporting period populates only `scope1.total`. -/
def scope1OnlyCompany : Company :=
  { wikidataId := "Q1"
    name := "Acme"
    reportingPeriods := [periodA] }

/-- A dataset consisting of `scope1OnlyCompany` alone. -/
def scope1Data : CompanyList := [scope1OnlyCompany]

/-- A staging variant of `scope1OnlyCompany` with a different
`scope1.total`, producing one mismatch. -/
def stageScope1Emissions : Emissions :=
  { scope1 := some { total := .val 200, mb := .undef, lb := .undef, unknown := .undef }
    scope2 := none
    scope3 := none
    calculatedTotalEmissions := .undef
    statedTotalEmissions := none }

/-- The staging company that disagrees with `scope1OnlyCompany` on
`scope1.total`. -/
def stageC4 : Company :=
  { wikidataId := "Q1"
    name := "Acme"
    reportingPeriods := [⟨"2022-12-31", some stageScope1Emissions, none⟩] }

/-- A scope-3 block whose stated total is an explicit `null`. -/
def nullStatedScope3 : Scope3 :=
  { statedTotalEmissions := some { total := .null }, categories := none }

/-- An emissions record whose two overall totals are explicit `null`s. -/
def nullTotalsEmissions : Emissions :=
  { scope1 := none
    scope2 := none
    scope3 := none
    calculatedTotalEmissions := .null
    statedTotalEmissions := some { total := .null } }

/-- A company absent from every concrete staging dataset used here. -/
def missingCompany : Company :=
  { wikidataId := "Q9", name := "Ghost", reportingPeriods := [] }

/-- A company whose id matches no production company used here. -/
def otherCompany : Company :=
  { wikidataId := "Q2", name := "Other", reportingPeriods := [] }

/-- The reference scope-3 categories of the worked example: numbers
1, 2, 3 with totals 10, 20, 30. -/
def exampleProdCats : List Scope3Category :=
  [⟨1, .val 10⟩, ⟨2, .val 20⟩, ⟨3, .val 30⟩]

/-- The candidate scope-3 categories of the worked example: numbers 1, 2
with totals 10, 25. -/
def exampleStageCats : List Scope3Category :=
  [⟨1, .val 10⟩, ⟨2, .val 25⟩]

/-- An emissions record exposing the example reference categories. -/
def exampleCatsEmissions : Emissions :=
  { scope1 := none
    scope2 := none
    scope3 := some { statedTotalEmissions := none, categories := some exampleProdCats }
    calculatedTotalEmissions := .undef
    statedTotalEmissions := none }

/-- A reporting period exposing the example reference categories. -/
def exampleCatsPeriod : ReportingPeriod := ⟨"2022-12-31", some exampleCatsEmissions, none⟩

/-- A reporting period dated 2021, used as a non-matching staging period. -/
def period2021 : ReportingPeriod := ⟨"2021-12-31", none, none⟩

/-! ### General lemmas about the comparators -/

/-- The company lookup by `wikidataId` returns a member itself when the
ids are pairwise distinct. -/
theorem find?_company_self :
    ∀ (d : CompanyList), (d.map Company.wikidataId).Nodup → ∀ c : Company, c ∈ d →
      d.find? (fun comp => decide (comp.wikidataId = c.wikidataId)) = some c := by
  intro d
  induction d with
  | nil => intro _ c hc; cases hc
  | cons a t ih =>
    intro hnd c hc
    rw [List.map_cons, List.nodup_cons] at hnd
    rcases List.mem_cons.mp hc with rfl | hct
    · exact List.find?_cons_of_pos _ (by simp)
    · have hne : a.wikidataId ≠ c.wikidataId :=
        fun h => hnd.1 (h ▸ List.mem_map_of_mem Company.wikidataId hct)
      rw [List.find?_cons_of_neg _ (by simpa using hne)]
      exact ih hnd.2 c hct

/-- The reporting-period lookup by derived year returns a member itself
when the derived years are pairwise distinct. -/
theorem find?_period_self :
    ∀ (sp : List ReportingPeriod), (sp.map (fun rp => formatYear rp.endDate)).Nodup →
      ∀ p : ReportingPeriod, p ∈ sp →
        sp.find? (fun rp => decide (formatYear rp.endDate = formatYear p.endDate)) = some p := by
  intro sp
  induction sp with
  | nil => intro _ p hp; cases hp
  | cons a t ih =>
    intro hnd p hp
    rw [List.map_cons, List.nodup_cons] at hnd
    rcases List.mem_cons.mp hp with rfl | hpt
    · exact List.find?_cons_of_pos _ (by simp)
    · have hne : formatYear a.endDate ≠ formatYear p.endDate := by
        intro h
        apply hnd.1
        rw [h]
        exact List.mem_map.mpr ⟨p, hpt, rfl⟩
      rw [List.find?_cons_of_neg _ (by simpa using hne)]
      exact ih hnd.2 p hpt

/-- The category lookup by category number returns a member itself when
the category numbers are pairwise distinct. -/
theorem find?_category_self :
    ∀ (cats : List Scope3Category), (cats.map Scope3Category.category).Nodup →
      ∀ pc : Scope3Category, pc ∈ cats →
        cats.find? (fun cat => decide (cat.category = pc.category)) = some pc := by
  intro cats
  induction cats with
  | nil => intro _ pc hpc; cases hpc
  | cons a t ih =>
    intro hnd pc hpc
    rw [List.map_cons, List.nodup_cons] at hnd
    rcases List.mem_cons.mp hpc with rfl | hpt
    · exact List.find?_cons_of_pos _ (by simp)
    · have hne : a.category ≠ pc.category :=
        fun h => hnd.1 (h ▸ List.mem_map_of_mem Scope3Category.category hpt)
      rw [List.find?_cons_of_neg _ (by simpa using hne)]
      exact ih hnd.2 pc hpt

/-- Unfolding of `combine3` on a cons cell. -/
theorem combine3_cons (a : List String × List String × Nat)
    (t : List (List String × List String × Nat)) :
    combine3 (a :: t) =
      (a.1 ++ (combine3 t).1, a.2.1 ++ (combine3 t).2.1, a.2.2 + (combine3 t).2.2) := rfl

/-- A combination of parts none of which pushed a mismatch pushes no
mismatch. -/
theorem combine3_mismatch_nil (parts : List (List String × List String × Nat))
    (h : ∀ x ∈ parts, x.2.1 = []) : (combine3 parts).2.1 = [] := by
  induction parts with
  | nil => rfl
  | cons a t ih =>
    rw [combine3_cons]
    have ha := h a (List.mem_cons_self a t)
    have ht := ih (fun x hx => h x (List.mem_cons_of_mem a hx))
    simp [ha, ht]

/-- Unfolding of `aggregatePeriods` on a cons cell. -/
theorem aggregatePeriods_cons (sp : List ReportingPeriod) (p : ReportingPeriod)
    (t : List ReportingPeriod) :
    aggregatePeriods sp (p :: t) =
      ((comparePeriod sp p).1 ++ (aggregatePeriods sp t).1,
       (comparePeriod sp p).2.1 ++ (aggregatePeriods sp t).2.1,
       (comparePeriod sp p).2.2.1 + (aggregatePeriods sp t).2.2.1,
       (comparePeriod sp p).2.2.2 + (aggregatePeriods sp t).2.2.2) := rfl

/-- Periods none of which produced a mismatch aggregate to no mismatch. -/
theorem aggregatePeriods_mismatch_nil (sp : List ReportingPeriod) :
    ∀ ps : List ReportingPeriod, (∀ p ∈ ps, (comparePeriod sp p).2.1 = []) →
      (aggregatePeriods sp ps).2.1 = [] := by
  intro ps
  induction ps with
  | nil => intro _; rfl
  | cons p t ih =>
    intro h
    rw [aggregatePeriods_cons]
    have hp := h p (List.mem_cons_self p t)
    have ht := ih (fun q hq => h q (List.mem_cons_of_mem p hq))
    simp [hp, ht]

/-- Unfolding of `compareCompany` when the staging lookup succeeds. -/
theorem compareCompany_found (stagingData : CompanyList) (prodCompany stageCompany : Company)
    (h : stagingData.find? (fun comp => decide (comp.wikidataId = prodCompany.wikidataId)) =
      some stageCompany) :
    compareCompany stagingData prodCompany =
      { name := prodCompany.name
        matchedFields := (aggregatePeriods stageCompany.reportingPeriods prodCompany.reportingPeriods).1
        mismatchedFields := (aggregatePeriods stageCompany.reportingPeriods prodCompany.reportingPeriods).2.1
        accuracy := accuracyOf (aggregatePeriods stageCompany.reportingPeriods prodCompany.reportingPeriods).2.2.1
          (aggregatePeriods stageCompany.reportingPeriods prodCompany.reportingPeriods).2.2.2
        note := if (aggregatePeriods stageCompany.reportingPeriods prodCompany.reportingPeriods).2.1 = []
            then "All data matches between production and staging"
            else "Partial mismatch or missing data between production and staging"
        inStaging := none } := by
  unfold compareCompany
  rw [h]

/-- Unfolding of `compareCompany` when the staging lookup fails. -/
theorem compareCompany_notfound (stagingData : CompanyList) (prodCompany : Company)
    (h : stagingData.find? (fun comp => decide (comp.wikidataId = prodCompany.wikidataId)) = none) :
    compareCompany stagingData prodCompany = companyNotInStaging prodCompany := by
  unfold compareCompany
  rw [h]

/-- Unfolding of `companyCounts` when the staging lookup succeeds. -/
theorem companyCounts_found (stagingData : CompanyList) (prodCompany stageCompany : Company)
    (h : stagingData.find? (fun comp => decide (comp.wikidataId = prodCompany.wikidataId)) =
      some stageCompany) :
    companyCounts stagingData prodCompany =
      ((aggregatePeriods stageCompany.reportingPeriods prodCompany.reportingPeriods).2.2.1,
       (aggregatePeriods stageCompany.reportingPeriods prodCompany.reportingPeriods).2.2.2) := by
  unfold companyCounts
  rw [h]

/-- The accuracy of every result is the accuracy formula applied to the
accumulated counts. -/
theorem compareCompany_accuracy (stagingData : CompanyList) (prodCompany : Company) :
    (compareCompany stagingData prodCompany).accuracy =
      accuracyOf (companyCounts stagingData prodCompany).1 (companyCounts stagingData prodCompany).2 := by
  unfold compareCompany companyCounts
  cases h : stagingData.find? (fun comp => decide (comp.wikidataId = prodCompany.wikidataId)) with
  | none => simp [companyNotInStaging, accuracyOf]
  | some stageCompany => simp

/-- The accuracy formula is nonnegative. -/
theorem accuracyOf_nonneg (m t : Nat) : 0 ≤ accuracyOf m t := by
  unfold accuracyOf round2
  split
  · apply div_nonneg _ (by norm_num)
    have h : (0 : ℤ) ≤ round ((m : ℚ) / (t : ℚ) * 100 * 100) := by
      rw [round_eq]
      apply Int.floor_nonneg.mpr
      positivity
    exact_mod_cast h
  · exact le_refl 0

/-- With no matched fields the accuracy formula yields 0. -/
theorem accuracyOf_matched_zero (t : Nat) : accuracyOf 0 t = 0 := by
  unfold accuracyOf round2
  split
  · norm_num
  · rfl

/-- With an empty denominator the accuracy formula yields 0. -/
theorem accuracyOf_total_zero (m : Nat) : accuracyOf m 0 = 0 := by
  simp [accuracyOf]

/-- A scope-1/2 field compared with itself never pushes a mismatch. -/
theorem compareEmissionField_self (scopeName fieldName year : String) (v : JVal ℚ) :
    (compareEmissionField scopeName fieldName v v year).2.1 = [] := by
  unfold compareEmissionField
  split_ifs <;> simp_all

/-- A scope block compared with itself never pushes a mismatch. -/
theorem compareEmissions_self (scopeName year : String) (s : Option Scope12) :
    (compareEmissions scopeName s s year).2.1 = [] := by
  unfold compareEmissions
  split
  · rfl
  · simp [combine3, compareEmissionField_self]

/-- A null-guarded value compared with itself never pushes a mismatch. -/
theorem compareNullableValue_self (label year : String) (v : JVal ℚ) :
    (compareNullableValue label v v year).2.1 = [] := by
  unfold compareNullableValue
  split_ifs <;> simp_all

/-- A category list with pairwise distinct category numbers matches each
of its own entries against itself, pushing no mismatch. -/
theorem compareScope3Category_self (year : String) (cats : List Scope3Category)
    (hnd : (cats.map Scope3Category.category).Nodup) (pc : Scope3Category) (hpc : pc ∈ cats) :
    (compareScope3Category cats pc year).2.1 = [] := by
  unfold compareScope3Category
  rw [find?_category_self cats hnd pc hpc]
  simp

/-- The category half of a self-comparison pushes no mismatch when the
category numbers are pairwise distinct. -/
theorem compareScope3Categories_self (year : String) (s3 : Option Scope3)
    (hnd : (((chainCategories s3).getD []).map Scope3Category.category).Nodup) :
    (compareScope3Categories s3 s3 year).2.1 = [] := by
  unfold compareScope3Categories
  cases h : chainCategories s3 with
  | none => rfl
  | some cats =>
    rw [h] at hnd
    simp only [Option.getD_some] at hnd
    apply combine3_mismatch_nil
    intro x hx
    obtain ⟨pc, hpc, rfl⟩ := List.mem_map.mp hx
    exact compareScope3Category_self year cats hnd pc hpc

/-- A scope-3 block compared with itself pushes no mismatch when its
category numbers are pairwise distinct. -/
theorem compareScope3_self (year : String) (s3 : Option Scope3)
    (hnd : (((chainCategories s3).getD []).map Scope3Category.category).Nodup) :
    (compareScope3 s3 s3 year).2.1 = [] := by
  unfold compareScope3
  split
  · rfl
  · rw [combine3_cons, combine3_cons]
    simp [compareNullableValue_self, compareScope3Categories_self year s3 hnd, combine3]

/-- The overall totals of an emissions record compared with itself push
no mismatch. -/
theorem compareTotalEmissions_self (year : String) (e : Option Emissions) :
    (compareTotalEmissions e e year).2.1 = [] := by
  unfold compareTotalEmissions
  rw [combine3_cons, combine3_cons]
  simp [compareNullableValue_self, combine3]

/-- An economy record compared with itself pushes no mismatch. -/
theorem compareEconomy_self (year : String) (ec : Option Economy) :
    (compareEconomy ec ec year).2.1 = [] := by
  simp only [compareEconomy]
  split_ifs <;> simp_all [combine3]

/-- Unfolding of `comparePeriod` when the staging period lookup fails. -/
theorem comparePeriod_notfound (sp : List ReportingPeriod) (p : ReportingPeriod)
    (h : sp.find? (fun rp => decide (formatYear rp.endDate = formatYear p.endDate)) = none) :
    comparePeriod sp p = ([], ["Reporting period: " ++ formatYear p.endDate], 0, 0) := by
  unfold comparePeriod
  rw [h]

/-- Unfolding of `comparePeriod` when the staging period lookup finds
`q`. -/
theorem comparePeriod_found (sp : List ReportingPeriod) (p q : ReportingPeriod)
    (h : sp.find? (fun rp => decide (formatYear rp.endDate = formatYear p.endDate)) = some q) :
    comparePeriod sp p =
      ((combine3 [
          compareEmissions "scope1" (chainScope1 p.emissions) (chainScope1 q.emissions)
            (formatYear p.endDate),
          compareEmissions "scope2" (chainScope2 p.emissions) (chainScope2 q.emissions)
            (formatYear p.endDate),
          compareScope3 (chainScope3 p.emissions) (chainScope3 q.emissions)
            (formatYear p.endDate),
          compareTotalEmissions p.emissions q.emissions (formatYear p.endDate),
          compareEconomy p.economy q.economy (formatYear p.endDate)]).1,
       (combine3 [
          compareEmissions "scope1" (chainScope1 p.emissions) (chainScope1 q.emissions)
            (formatYear p.endDate),
          compareEmissions "scope2" (chainScope2 p.emissions) (chainScope2 q.emissions)
            (formatYear p.endDate),
          compareScope3 (chainScope3 p.emissions) (chainScope3 q.emissions)
            (formatYear p.endDate),
          compareTotalEmissions p.emissions q.emissions (formatYear p.endDate),
          compareEconomy p.economy q.economy (formatYear p.endDate)]).2.1,
       (combine3 [
          compareEmissions "scope1" (chainScope1 p.emissions) (chainScope1 q.emissions)
            (formatYear p.endDate),
          compareEmissions "scope2" (chainScope2 p.emissions) (chainScope2 q.emissions)
            (formatYear p.endDate),
          compareScope3 (chainScope3 p.emissions) (chainScope3 q.emissions)
            (formatYear p.endDate),
          compareTotalEmissions p.emissions q.emissions (formatYear p.endDate),
          compareEconomy p.economy q.economy (formatYear p.endDate)]).2.2,
       1 + 3 + (chainCatsLen p.emissions + 1) + 2 + 2) := by
  unfold comparePeriod
  rw [h]

/-- A reporting period compared against a list that contains it, with
pairwise distinct years and distinct category numbers, pushes no
mismatch. -/
theorem comparePeriod_self (sp : List ReportingPeriod) (p : ReportingPeriod)
    (hy : (sp.map (fun rp => formatYear rp.endDate)).Nodup) (hp : p ∈ sp)
    (hcats : (((chainCategories (chainScope3 p.emissions)).getD []).map
      Scope3Category.category).Nodup) :
    (comparePeriod sp p).2.1 = [] := by
  rw [comparePeriod_found sp p p (find?_period_self sp hy p hp)]
  apply combine3_mismatch_nil
  intro x hx
  simp only [List.mem_cons, List.not_mem_nil, or_false] at hx
  rcases hx with rfl | rfl | rfl | rfl | rfl
  · exact compareEmissions_self _ _ _
  · exact compareEmissions_self _ _ _
  · exact compareScope3_self _ _ hcats
  · exact compareTotalEmissions_self _ _
  · exact compareEconomy_self _ _

/-! ### Claims -/

/-- Claim C1 (counterexample): comparing the fully populated dataset with
itself produces a single result whose accuracy is `accuracyOf 13 9`,
which exceeds 100 — the matched-field count (13) exceeds the fixed
denominator (9), so the claimed bound `accuracy ≤ 100` fails. -/
theorem claimC1_counterexample :
    (compareData fullData fullData).map ComparisonResult.accuracy = [accuracyOf 13 9] ∧
    (100 : ℚ) < accuracyOf 13 9 := by
  constructor
  · rfl
  · norm_num [accuracyOf, round2, round_eq]

/-- Claim C1 (amended): every accuracy `compareData` emits is
nonnegative, and the accuracy of a company's result is 0 whenever its
accumulated matchedFieldCount or totalFieldCount is 0; the claimed upper
bound 100 does not hold in general. -/
theorem claimC1_amended (staging prod : CompanyList) (c : Company) :
    (∀ r ∈ compareData staging prod, 0 ≤ r.accuracy) ∧
    ((companyCounts staging c).1 = 0 ∨ (companyCounts staging c).2 = 0 →
      (compareCompany staging c).accuracy = 0) := by
  constructor
  · intro r hr
    obtain ⟨c', _, rfl⟩ := List.mem_map.mp hr
    rw [compareCompany_accuracy]
    exact accuracyOf_nonneg _ _
  · intro h
    rw [compareCompany_accuracy]
    rcases h with h | h
    · rw [h]; exact accuracyOf_matched_zero _
    · rw [h]; exact accuracyOf_total_zero _

/-- Claim C1 witness: the amended bound instantiated on concrete data. -/
theorem claimC1_witness :
    0 ≤ (compareCompany scope1Data scope1OnlyCompany).accuracy ∧
    (compareCompany [] missingCompany).accuracy = 0 := by
  constructor
  · exact (claimC1_amended scope1Data scope1Data scope1OnlyCompany).1 _
      (List.mem_map_of_mem _ (List.mem_singleton.mpr rfl))
  · exact (claimC1_amended [] [] missingCompany).2 (Or.inl (by decide))

/-- Claim C2 (counterexample): a dataset compared against an identical
copy of itself can have accuracy different from 100 — with only
`scope1.total` populated the single result's accuracy is
`accuracyOf 1 9` (11.11), not 100. -/
theorem claimC2_counterexample :
    (compareData scope1Data scope1Data).map ComparisonResult.accuracy = [accuracyOf 1 9] ∧
    accuracyOf 1 9 ≠ 100 := by
  constructor
  · rfl
  · norm_num [accuracyOf, round2, round_eq]

/-- Claim C2 (amended): when wikidataIds are pairwise distinct, each
company's derived reporting-period years are pairwise distinct, and each
period's scope-3 category numbers are pairwise distinct, comparing a
dataset against an identical copy of itself yields an empty
mismatchedFields list for every company; the accuracy, however, need not
be 100. -/
theorem claimC2_amended (d : CompanyList)
    (hid : (d.map Company.wikidataId).Nodup)
    (hyear : ∀ c ∈ d, (c.reportingPeriods.map (fun rp => formatYear rp.endDate)).Nodup)
    (hcats : ∀ c ∈ d, ∀ p ∈ c.reportingPeriods,
      (((chainCategories (chainScope3 p.emissions)).getD []).map Scope3Category.category).Nodup) :
    ∀ r ∈ compareData d d, r.mismatchedFields = [] := by
  intro r hr
  obtain ⟨c, hc, rfl⟩ := List.mem_map.mp hr
  rw [compareCompany_found d c c (find?_company_self d hid c hc)]
  exact aggregatePeriods_mismatch_nil c.reportingPeriods c.reportingPeriods
    (fun p hp => comparePeriod_self c.reportingPeriods p (hyear c hc) hp (hcats c hc p hp))

/-- Claim C2 witness: the amended statement instantiated on the fully
populated dataset. -/
theorem claimC2_witness :
    (compareCompany fullData fullCompany).mismatchedFields = [] :=
  claimC2_amended fullData (by decide) (by decide) (by decide) _
    (List.mem_map_of_mem _ (List.mem_singleton.mpr rfl))

/-- Claim C3 (counterexample): when both sides' stated totals are
`null` the source records nothing at all — `null === null` selects the
match branch and the `!= null` guard then suppresses the entry — so no
mismatchedFields entry is produced, contrary to the claim; likewise for
both overall totals in the total-emissions comparison. -/
theorem claimC3_counterexample :
    chainStatedTotal (some nullStatedScope3) = JVal.null ∧
    compareScope3 (some nullStatedScope3) (some nullStatedScope3) "2022" = ([], [], 0) ∧
    chainCalculated (some nullTotalsEmissions) = JVal.null ∧
    chainEmissionsStated (some nullTotalsEmissions) = JVal.null ∧
    compareTotalEmissions (some nullTotalsEmissions) (some nullTotalsEmissions) "2022" =
      ([], [], 0) := by
  exact ⟨rfl, by decide, rfl, rfl, by decide⟩

/-- Claim C3 (amended): in the null-guarded value comparison used for the
scope-3 stated total and both overall totals, a matchedFields entry is
produced iff the two values are equal and non-null, and a
mismatchedFields entry is produced iff the two values are unequal; when
the values are equal but null or undefined (in particular both null),
no entry of either kind is recorded. -/
theorem claimC3_amended (label year : String) (p s : JVal ℚ)
    (p3 s3 : Option Scope3) (pe se : Option Emissions) :
    ((compareNullableValue label p s year).1 ≠ [] ↔ p = s ∧ p.neNull = true) ∧
    ((compareNullableValue label p s year).2.1 ≠ [] ↔ p ≠ s) ∧
    compareScope3 p3 s3 year = combine3 [
      compareNullableValue "scope3.statedTotalEmissions.total"
        (chainStatedTotal p3) (chainStatedTotal s3) year,
      compareScope3Categories p3 s3 year] ∧
    compareTotalEmissions pe se year = combine3 [
      compareNullableValue "calculatedTotalEmissions"
        (chainCalculated pe) (chainCalculated se) year,
      compareNullableValue "statedTotalEmissions.total"
        (chainEmissionsStated pe) (chainEmissionsStated se) year] := by
  refine ⟨?_, ?_, ?_, rfl⟩
  · unfold compareNullableValue
    split_ifs with h1 h2 <;> simp_all
  · unfold compareNullableValue
    split_ifs with h1 h2 <;> simp_all
  · unfold compareScope3
    split_ifs with h
    · obtain ⟨rfl, rfl⟩ := h
      rfl
    · rfl

/-- The five scoped CSV columns never hit the mismatch branch: every key
of the mismatched map is the string "undefined". -/
theorem resolveMatchOrDifference_startsWith (fieldName : String)
    (hne : fieldName ≠ "undefined") (mm mf : List String) :
    resolveMatchOrDifference fieldName (mismatchedMapLookup mm) mf =
      if mf.any (fun field => field.startsWith fieldName) then "Yes" else "N/A" := by
  unfold resolveMatchOrDifference mismatchedMapLookup
  rw [if_neg (fun hc => hne hc.1)]
  cases h : mf.find? (fun field => field.startsWith fieldName) with
  | none =>
    have ha : mf.any (fun field => field.startsWith fieldName) = false :=
      List.any_eq_false.mpr (by simpa using List.find?_eq_none.mp h)
    rw [ha]
    rfl
  | some x =>
    have ha : mf.any (fun field => field.startsWith fieldName) = true :=
      List.any_eq_true.mpr ⟨x, List.mem_of_find?_eq_some h, by simpa using List.find?_some h⟩
    rw [ha]
    rfl

/-- Claim C4 (counterexample): a run with a `scope1.total` mismatch entry
renders the scope1 column as "N/A", not as a "Production: X, Staging: Y"
string — mismatch entries are plain strings, so the renderer's
production/staging branch is unreachable. -/
theorem claimC4_counterexample :
    (compareData [stageC4] [scope1OnlyCompany]).map ComparisonResult.mismatchedFields =
      [["scope1.total: 2022"]] ∧
    (generateCSV (compareData [stageC4] [scope1OnlyCompany])).map CSVRow.scope1 = ["N/A"] := by
  exact ⟨by decide, by decide⟩

/-- Claim C4 (amended): each scoped CSV column resolves to "Yes" when
some matchedFields label starts with the column's prefix and to "N/A"
otherwise; the "Production: X, Staging: Y" branch never fires because
mismatch entries are plain strings without `field`/`production`/`staging`
properties. -/
theorem claimC4_amended (result : ComparisonResult) :
    (generateCSVRow result).scope1 =
      (if result.matchedFields.any (fun field => field.startsWith "scope1")
        then "Yes" else "N/A") ∧
    (generateCSVRow result).scope2 =
      (if result.matchedFields.any (fun field => field.startsWith "scope2")
        then "Yes" else "N/A") ∧
    (generateCSVRow result).scope3 =
      (if result.matchedFields.any (fun field => field.startsWith "scope3")
        then "Yes" else "N/A") ∧
    (generateCSVRow result).employees =
      (if result.matchedFields.any (fun field => field.startsWith "employees")
        then "Yes" else "N/A") ∧
    (generateCSVRow result).economy =
      (if result.matchedFields.any (fun field => field.startsWith "economy")
        then "Yes" else "N/A") := by
  refine ⟨?_, ?_, ?_, ?_, ?_⟩
  · exact resolveMatchOrDifference_startsWith "scope1" (by decide)
      result.mismatchedFields result.matchedFields
  · exact resolveMatchOrDifference_startsWith "scope2" (by decide)
      result.mismatchedFields result.matchedFields
  · exact resolveMatchOrDifference_startsWith "scope3" (by decide)
      result.mismatchedFields result.matchedFields
  · exact resolveMatchOrDifference_startsWith "employees" (by decide)
      result.mismatchedFields result.matchedFields
  · exact resolveMatchOrDifference_startsWith "economy" (by decide)
      result.mismatchedFields result.matchedFields

/-- Claim C5: a production company whose wikidataId matches no staging
company yields the fixed absent-company result, a staging company whose
wikidataId matches no production company changes nothing (and so is
never reported), and `compareData` emits exactly one result per
production company. -/
theorem claimC5 (staging prod : CompanyList) (c c' : Company)
    (h1 : ∀ sc ∈ staging, sc.wikidataId ≠ c.wikidataId)
    (h2 : ∀ cp ∈ prod, cp.wikidataId ≠ c'.wikidataId) :
    compareCompany staging c =
      { name := c.name
        matchedFields := []
        mismatchedFields := ["Company does not exist in staging"]
        accuracy := 0
        note := "Exists in production but not in staging"
        inStaging := none } ∧
    compareData (staging ++ [c']) prod = compareData staging prod ∧
    (compareData staging prod).length = prod.length := by
  refine ⟨?_, ?_, by simp [compareData]⟩
  · rw [compareCompany_notfound staging c
      (List.find?_eq_none.mpr (fun sc hsc => by simpa using h1 sc hsc))]
    rfl
  · unfold compareData
    apply List.map_congr_left
    intro cp hcp
    unfold compareCompany
    rw [List.find?_append]
    cases hf : staging.find? (fun comp => decide (comp.wikidataId = cp.wikidataId)) with
    | some x => rfl
    | none =>
      rw [List.find?_cons_of_neg _ (by simpa using Ne.symm (h2 cp hcp)), List.find?_nil]
      rfl

/-- Claim C5 witness: instantiation on concrete companies. -/
theorem claimC5_witness :
    compareCompany [stageC4] missingCompany =
      { name := "Ghost"
        matchedFields := []
        mismatchedFields := ["Company does not exist in staging"]
        accuracy := 0
        note := "Exists in production but not in staging"
        inStaging := none } ∧
    compareData ([stageC4] ++ [otherCompany]) [fullCompany] =
      compareData [stageC4] [fullCompany] ∧
    (compareData [stageC4] [fullCompany]).length = 1 :=
  claimC5 [stageC4] [fullCompany] missingCompany otherCompany (by decide) (by decide)

/-- Claim C6: for a scope-1/2 field, both sides defined and equal appends
the matched label, both defined and unequal appends the mismatched
label, either side undefined appends nothing; `compareEmissions` is the
combination of the four field comparisons; and a matched period's
denominator contribution is the fixed 1 (scope1) + 3 (scope2) +
(categories + 1) + 2 + 2, independent of which sub-fields are
populated. -/
theorem claimC6 (scopeName fieldName year : String) (pv sv : JVal ℚ) :
    (pv ≠ JVal.undef ∧ sv ≠ JVal.undef ∧ pv = sv →
      compareEmissionField scopeName fieldName pv sv year =
        ([scopeName ++ "." ++ fieldName ++ ": " ++ year], [], 1)) ∧
    (pv ≠ JVal.undef ∧ sv ≠ JVal.undef ∧ pv ≠ sv →
      compareEmissionField scopeName fieldName pv sv year =
        ([], [scopeName ++ "." ++ fieldName ++ ": " ++ year], 0)) ∧
    (pv = JVal.undef ∨ sv = JVal.undef →
      compareEmissionField scopeName fieldName pv sv year = ([], [], 0)) ∧
    (∀ prodScope stageScope : Option Scope12,
      compareEmissions scopeName prodScope stageScope year = combine3 [
        compareEmissionField scopeName "total" (chainField prodScope Scope12.total)
          (chainField stageScope Scope12.total) year,
        compareEmissionField scopeName "mb" (chainField prodScope Scope12.mb)
          (chainField stageScope Scope12.mb) year,
        compareEmissionField scopeName "lb" (chainField prodScope Scope12.lb)
          (chainField stageScope Scope12.lb) year,
        compareEmissionField scopeName "unknown" (chainField prodScope Scope12.unknown)
          (chainField stageScope Scope12.unknown) year]) ∧
    (∀ (sp : List ReportingPeriod) (p q : ReportingPeriod),
      sp.find? (fun rp => decide (formatYear rp.endDate = formatYear p.endDate)) = some q →
      (comparePeriod sp p).2.2.2 =
        1 + 3 + (chainCatsLen p.emissions + 1) + 2 + 2) := by
  refine ⟨?_, ?_, ?_, ?_, ?_⟩
  · rintro ⟨hp, hs, he⟩
    unfold compareEmissionField
    rw [if_pos ⟨hp, hs⟩, if_pos he]
  · rintro ⟨hp, hs, he⟩
    unfold compareEmissionField
    rw [if_pos ⟨hp, hs⟩, if_neg he]
  · intro h
    unfold compareEmissionField
    rw [if_neg]
    rintro ⟨hp, hs⟩
    rcases h with h | h
    · exact hp h
    · exact hs h
  · intro prodScope stageScope
    unfold compareEmissions
    split_ifs with h
    · obtain ⟨rfl, rfl⟩ := h
      rfl
    · rfl
  · intro sp p q h
    rw [comparePeriod_found sp p q h]

/-- Claim C6 witness: instantiation on concrete field values and a
concrete matched period. -/
theorem claimC6_witness :
    compareEmissionField "scope1" "total" (JVal.val 1) (JVal.val 1) "2022" =
      (["scope1.total: 2022"], [], 1) ∧
    compareEmissionField "scope1" "total" (JVal.val 1) (JVal.val 2) "2022" =
      ([], ["scope1.total: 2022"], 0) ∧
    compareEmissionField "scope1" "total" JVal.undef (JVal.val 2) "2022" = ([], [], 0) ∧
    (comparePeriod [periodA] periodA).2.2.2 = 1 + 3 + (0 + 1) + 2 + 2 := by
  refine ⟨?_, ?_, ?_, ?_⟩
  · exact (claimC6 "scope1" "total" "2022" (.val 1) (.val 1)).1 ⟨by decide, by decide, rfl⟩
  · exact (claimC6 "scope1" "total" "2022" (.val 1) (.val 2)).2.1 ⟨by decide, by decide, by decide⟩
  · exact (claimC6 "scope1" "total" "2022" .undef (.val 2)).2.2.1 (Or.inl rfl)
  · exact (claimC6 "scope1" "total" "2022" .undef .undef).2.2.2.2 [periodA] periodA periodA
      (by decide)

/-- Claim C7: in the category loop, a production category whose number is
absent from the staging collection yields the category mismatch label, a
present one yields a match or mismatch according to equality of totals,
the loop runs over the production categories against the staging
collection, and a matched period's scope-3 denominator contribution is 1
plus the number of production-side categories. -/
theorem claimC7 (year : String) (pc : Scope3Category) (pcats scats : List Scope3Category)
    (p3 s3 : Option Scope3) :
    (scats.find? (fun cat => decide (cat.category = pc.category)) = none →
      compareScope3Category scats pc year = ([], [categoryLabel pc year], 0)) ∧
    (∀ sc, scats.find? (fun cat => decide (cat.category = pc.category)) = some sc →
      compareScope3Category scats pc year =
        if pc.total = sc.total then ([categoryLabel pc year], [], 1)
        else ([], [categoryLabel pc year], 0)) ∧
    (chainCategories p3 = some pcats → chainCategories s3 = some scats →
      compareScope3Categories p3 s3 year =
        combine3 (pcats.map (fun c => compareScope3Category scats c year))) ∧
    (∀ (sp : List ReportingPeriod) (p q : ReportingPeriod),
      sp.find? (fun rp => decide (formatYear rp.endDate = formatYear p.endDate)) = some q →
      chainCategories (chainScope3 p.emissions) = some pcats →
      (comparePeriod sp p).2.2.2 = 1 + 3 + (pcats.length + 1) + 2 + 2) := by
  refine ⟨?_, ?_, ?_, ?_⟩
  · intro h
    unfold compareScope3Category
    rw [h]
  · intro sc h
    unfold compareScope3Category
    rw [h]
  · intro hp hs
    unfold compareScope3Categories
    rw [hp, hs]
  · intro sp p q hfind hcats
    rw [comparePeriod_found sp p q hfind]
    unfold chainCatsLen
    rw [hcats]

/-- Claim C7 witness: the worked example — production categories
[1, 2, 3] with totals [10, 20, 30] against staging categories [1, 2]
with totals [10, 25] give a match, a mismatch and an absent-category
mismatch, with denominator contribution 3 + 1. -/
theorem claimC7_witness :
    compareScope3Category exampleStageCats ⟨3, .val 30⟩ "2022" =
      ([], ["scope3.category=3: 2022"], 0) ∧
    compareScope3Category exampleStageCats ⟨1, .val 10⟩ "2022" =
      (["scope3.category=1: 2022"], [], 1) ∧
    compareScope3Category exampleStageCats ⟨2, .val 20⟩ "2022" =
      ([], ["scope3.category=2: 2022"], 0) ∧
    (comparePeriod [exampleCatsPeriod] exampleCatsPeriod).2.2.2 =
      1 + 3 + (3 + 1) + 2 + 2 := by
  refine ⟨?_, ?_, ?_, ?_⟩
  · exact ((claimC7 "2022" ⟨3, .val 30⟩ exampleProdCats exampleStageCats none none).1
      (by decide)).trans (by decide)
  · exact ((claimC7 "2022" ⟨1, .val 10⟩ exampleProdCats exampleStageCats none none).2.1
      ⟨1, .val 10⟩ (by decide)).trans (by decide)
  · exact ((claimC7 "2022" ⟨2, .val 20⟩ exampleProdCats exampleStageCats none none).2.1
      ⟨2, .val 25⟩ (by decide)).trans (by decide)
  · exact (claimC7 "2022" ⟨1, .val 10⟩ exampleProdCats exampleStageCats none none).2.2.2
      [exampleCatsPeriod] exampleCatsPeriod exampleCatsPeriod (by decide) rfl

/-- Claim C8: a production reporting period whose derived year matches no
staging period pushes only the `"Reporting period: <year>"` mismatch and
contributes nothing to either the matched count or the denominator. -/
theorem claimC8 (sp : List ReportingPeriod) (p : ReportingPeriod)
    (h : sp.find? (fun rp => decide (formatYear rp.endDate = formatYear p.endDate)) = none) :
    comparePeriod sp p = ([], ["Reporting period: " ++ formatYear p.endDate], 0, 0) := by
  unfold comparePeriod
  rw [h]

/-- Claim C8 witness: a 2022 period against a staging list holding only
a 2021 period. -/
theorem claimC8_witness :
    comparePeriod [period2021] periodA = ([], ["Reporting period: 2022"], 0, 0) :=
  claimC8 [period2021] periodA (by decide)

/-- Claim C9: the comparison is total — it is built from total functions,
emits exactly one result per production company, and each comparator
degrades to "no entries, no count" on wholly absent input. -/
theorem claimC9 (staging prod : CompanyList) (scopeName year : String) :
    (compareData staging prod).length = prod.length ∧
    compareEmissions scopeName none none year = ([], [], 0) ∧
    compareScope3 none none year = ([], [], 0) ∧
    compareTotalEmissions none none year = ([], [], 0) ∧
    compareEconomy none none year = ([], [], 0) := by
  exact ⟨by simp [compareData], rfl, rfl, rfl, rfl⟩

/-- Claim C10: `compareData` never sets `inStaging` on any result, so the
rendered CSV row's inStaging column is "No" for every company — even
those present in the staging dataset. -/
theorem claimC10 (staging prod : CompanyList) :
    ∀ r ∈ compareData staging prod,
      r.inStaging = none ∧ (generateCSVRow r).inStaging = "No" := by
  intro r hr
  obtain ⟨c, hc, rfl⟩ := List.mem_map.mp hr
  have h1 : (compareCompany staging c).inStaging = none := by
    unfold compareCompany
    cases h : staging.find? (fun comp => decide (comp.wikidataId = c.wikidataId)) with
    | none => rfl
    | some st => rfl
  refine ⟨h1, ?_⟩
  simp [generateCSVRow, h1]

/-- Claim C10 witness: instantiation on a company that does exist in the
staging dataset. -/
theorem claimC10_witness :
    (compareCompany scope1Data scope1OnlyCompany).inStaging = none ∧
    (generateCSVRow (compareCompany scope1Data scope1OnlyCompany)).inStaging = "No" :=
  claimC10 scope1Data scope1Data _ (List.mem_map_of_mem _ (List.mem_singleton.mpr rfl))

end Garbo
